import Mathlib

/-!
Shallow embedding of the breathing-bubble widget (`src/pages/Index.tsx`).

JavaScript numbers are modelled as rationals (`ℚ`); all the arithmetic the
program performs on them (addition, multiplication, division by constants,
`Math.max`/`Math.min`, the `%` operator, `Math.floor`) is exact on the
values involved.  Phase names are the string literals the source uses.
`Math.random()` draws are modelled as injected rational parameters.
-/

namespace BubbleCalmFlow

/-- Truncated integer part, the rounding JavaScript division-based `%` uses:
toward zero. -/
def jsTrunc (q : ℚ) : ℤ :=
  if 0 ≤ q then ⌊q⌋ else ⌈q⌉

/-- JavaScript remainder operator `x % y`: `x - y * trunc (x / y)`. -/
def jsMod (x y : ℚ) : ℚ :=
  x - y * (jsTrunc (x / y) : ℚ)

/-- Breathing cycle times in seconds (`CYCLE` object literal, lines 26-31). -/
structure CycleTimes where
  inhale : ℚ
  hold : ℚ
  exhale : ℚ
  rest : ℚ

/-- `const CYCLE = { inhale: 4, hold: 2, exhale: 6, rest: 2 }`. -/
def CYCLE : CycleTimes :=
  { inhale := 4, hold := 2, exhale := 6, rest := 2 }

/-- `const TOTAL_CYCLE = CYCLE.inhale + CYCLE.hold + CYCLE.exhale + CYCLE.rest`. -/
def TOTAL_CYCLE : ℚ :=
  CYCLE.inhale + CYCLE.hold + CYCLE.exhale + CYCLE.rest

/-- `easeInOutCubic` (lines 35-37): `t < 0.5 ? 4*t*t*t : 1 - (-2*t+2)^3 / 2`. -/
def easeInOutCubic (t : ℚ) : ℚ :=
  if t < 0.5 then 4 * t * t * t else 1 - (-2 * t + 2) ^ 3 / 2

/-- `easeOutQuad` (lines 39-41): `1 - (1-t)*(1-t)`. -/
def easeOutQuad (t : ℚ) : ℚ :=
  1 - (1 - t) * (1 - t)

/-- The per-frame quantities derived from the cycle time inside `animate`
(lines 118-146): phase name, progress within the phase, bubble scale and
glow intensity. -/
structure FrameParams where
  currentPhase : String
  phaseProgress : ℚ
  bubbleScale : ℚ
  glowIntensity : ℚ

/-- The phase-selection if/else chain of `animate` (lines 124-146), as a
function of `cycleTime`. -/
def phaseParams (cycleTime : ℚ) : FrameParams :=
  if cycleTime < CYCLE.inhale then
    let phaseProgress := cycleTime / CYCLE.inhale
    let eased := easeInOutCubic phaseProgress
    { currentPhase := "Inhale", phaseProgress := phaseProgress,
      bubbleScale := 1 + eased * 0.5, glowIntensity := 0.5 + eased * 0.5 }
  else if cycleTime < CYCLE.inhale + CYCLE.hold then
    { currentPhase := "Hold",
      phaseProgress := (cycleTime - CYCLE.inhale) / CYCLE.hold,
      bubbleScale := 1.5, glowIntensity := 1 }
  else if cycleTime < CYCLE.inhale + CYCLE.hold + CYCLE.exhale then
    let phaseProgress := (cycleTime - CYCLE.inhale - CYCLE.hold) / CYCLE.exhale
    let eased := easeOutQuad phaseProgress
    { currentPhase := "Exhale", phaseProgress := phaseProgress,
      bubbleScale := 1.5 - eased * 0.5, glowIntensity := 1 - eased * 0.5 }
  else
    { currentPhase := "Rest",
      phaseProgress := (cycleTime - CYCLE.inhale - CYCLE.hold - CYCLE.exhale) / CYCLE.rest,
      bubbleScale := 1, glowIntensity := 0.5 }

/-- The phase the program reports for an elapsed time `e` (seconds): it first
reduces `e` modulo `TOTAL_CYCLE` (line 116), then runs the selection chain. -/
def phaseFor (e : ℚ) : String :=
  (phaseParams (jsMod e TOTAL_CYCLE)).currentPhase

/-- The mutable component state touched by the handlers and the state-relevant
part of `animate`: `isActive`, `phase`, `syncPercentage` (React state),
`startTimeRef`, `isPressingRef`, `pressStartTimeRef` (refs). -/
structure SessionState where
  isActive : Bool
  phase : String
  syncPercentage : ℚ
  startTime : ℚ
  isPressing : Bool
  pressStartTime : ℚ

/-- Initial values: `useState(false)`, `useState("Ready")`, `useState(100)`,
`useRef(0)` twice, `useRef(false)`. -/
def initialState : SessionState :=
  { isActive := false, phase := "Ready", syncPercentage := 100,
    startTime := 0, isPressing := false, pressStartTime := 0 }

/-- Start timestamp in effect during a frame: `animate` lines 111-113 set
`startTimeRef.current` to the frame timestamp when it is still `0`. -/
def effStartTime (st : SessionState) (timestamp : ℚ) : ℚ :=
  if st.startTime = 0 then timestamp else st.startTime

/-- Elapsed seconds a frame at `timestamp` computes (line 115). -/
def elapsedAt (st : SessionState) (timestamp : ℚ) : ℚ :=
  (timestamp - effStartTime st timestamp) / 1000

/-- The `setSyncPercentage` updater (lines 160-163):
`Math.max(0, Math.min(100, prev + adjustment * 0.1))` with
`adjustment = isCorrectPhase ? 1 : -2`. -/
def syncStep (prev : ℚ) (isCorrectPhase : Bool) : ℚ :=
  let adjustment : ℚ := if isCorrectPhase then 1 else -2
  max 0 (min 100 (prev + adjustment * 0.1))

/-- State effect of one `animate` invocation (lines 105-164): early return
while inactive; otherwise establish the start time, compute the phase from
the elapsed time, and, when pressing, adjust the sync score.  The drawing
commands (lines 166-226) do not touch this state. -/
def animate (st : SessionState) (timestamp : ℚ) : SessionState :=
  if st.isActive = false then st
  else
    let startTime := effStartTime st timestamp
    let elapsed := (timestamp - startTime) / 1000
    let cycleTime := jsMod elapsed TOTAL_CYCLE
    let params := phaseParams cycleTime
    let currentPhase := params.currentPhase
    let targetPhase :=
      if currentPhase == "Inhale" then "Inhale"
      else if currentPhase == "Hold" then "Hold"
      else "None"
    let isCorrectPhase := targetPhase == "Inhale" || targetPhase == "Hold"
    let newSync :=
      if st.isPressing then syncStep st.syncPercentage isCorrectPhase
      else st.syncPercentage
    { st with phase := currentPhase, startTime := startTime,
              syncPercentage := newSync }

/-- `handleStart` (lines 240-244). -/
def handleStart (st : SessionState) : SessionState :=
  { st with isActive := true, startTime := 0, syncPercentage := 100 }

/-- `handleReset` (lines 246-252). -/
def handleReset (st : SessionState) : SessionState :=
  { st with isActive := false, startTime := 0, phase := "Ready",
            syncPercentage := 100, isPressing := false }

/-- `handleMouseDown` (lines 254-257); `now` is `performance.now()`. -/
def handleMouseDown (st : SessionState) (now : ℚ) : SessionState :=
  { st with isPressing := true, pressStartTime := now }

/-- `handleMouseUp` (lines 259-261). -/
def handleMouseUp (st : SessionState) : SessionState :=
  { st with isPressing := false }

/-- The externally triggered events of the component: the two buttons, the
pointer/touch press edges, and an animation frame at a given timestamp. -/
inductive Event where
  | start : Event
  | reset : Event
  | mouseDown : ℚ → Event
  | mouseUp : Event
  | frame : ℚ → Event

/-- Dispatch one event to its handler. -/
def stepEvent (st : SessionState) : Event → SessionState
  | Event.start => handleStart st
  | Event.reset => handleReset st
  | Event.mouseDown now => handleMouseDown st now
  | Event.mouseUp => handleMouseUp st
  | Event.frame timestamp => animate st timestamp

/-- Run a sequence of events from a state. -/
def runEvents (st : SessionState) (events : List Event) : SessionState :=
  events.foldl stepEvent st

/-- The `Particle` interface (lines 4-12). -/
structure Particle where
  x : ℚ
  y : ℚ
  vx : ℚ
  vy : ℚ
  size : ℚ
  color : String
  alpha : ℚ

/-- The palette of `initParticles` (line 46). -/
def colors : List String :=
  ["#5FD4D6", "#A78BFA", "#F9A8D4"]

/-- The seven `Math.random()` draws one particle consumes, each a rational
in `[0, 1)` injected as a parameter. -/
structure RandomDraws where
  rx : ℚ
  ry : ℚ
  rvx : ℚ
  rvy : ℚ
  rsize : ℚ
  rcolor : ℚ
  ralpha : ℚ

/-- One particle as pushed by `initParticles` (lines 49-57);
`colors[Math.floor(Math.random() * 3)]` is list indexing with a default for
the out-of-range case that cannot occur for draws in `[0, 1)`. -/
def mkParticle (width height : ℚ) (r : RandomDraws) : Particle :=
  { x := r.rx * width, y := r.ry * height,
    vx := (r.rvx - 0.5) * 0.5, vy := (r.rvy - 0.5) * 0.5,
    size := r.rsize * 3 + 1,
    color := colors.getD (jsTrunc (r.rcolor * 3)).toNat "",
    alpha := r.ralpha * 0.3 + 0.1 }

/-- `initParticles` (lines 44-60): a loop of 30 pushes. -/
def initParticles (width height : ℚ) (rand : Nat → RandomDraws) : List Particle :=
  (List.range 30).map (fun i => mkParticle width height (rand i))

/-- The per-frame mutation of one particle inside `drawParticles`
(lines 65-73): advance by velocity, then the two sequential wrap `if`s per
axis.  The drawing commands that follow do not change the particle. -/
def updateParticle (width height : ℚ) (p : Particle) : Particle :=
  let x1 := p.x + p.vx
  let y1 := p.y + p.vy
  let x2 := if x1 < 0 then width else x1
  let x3 := if x2 > width then 0 else x2
  let y2 := if y1 < 0 then height else y1
  let y3 := if y2 > height then 0 else y2
  { p with x := x3, y := y3 }

/-- `n` successive frame updates of one particle. -/
def updateParticleN (width height : ℚ) : Nat → Particle → Particle
  | 0, p => p
  | n + 1, p => updateParticleN width height n (updateParticle width height p)

/-- The canvas-related state the resize listener touches: the surface
dimensions and `particlesRef`. -/
structure CanvasState where
  width : ℚ
  height : ℚ
  particles : List Particle

/-- `resizeCanvas` (lines 95-101): set the dimensions, then initialize the
particle set only when none exists yet. -/
def resizeCanvas (st : CanvasState) (newWidth newHeight : ℚ)
    (rand : Nat → RandomDraws) : CanvasState :=
  { width := newWidth, height := newHeight,
    particles :=
      if st.particles.length = 0 then initParticles newWidth newHeight rand
      else st.particles }

/-! Helper lemmas about the JavaScript remainder. -/

theorem jsMod_bounds (x y : ℚ) (hx : 0 ≤ x) (hy : 0 < y) :
    0 ≤ jsMod x y ∧ jsMod x y < y := by
  have hq : 0 ≤ x / y := div_nonneg hx hy.le
  unfold jsMod jsTrunc
  rw [if_pos hq]
  constructor
  · have h1 : ((⌊x / y⌋ : ℚ)) ≤ x / y := Int.floor_le _
    have h2 : y * ((⌊x / y⌋ : ℚ)) ≤ y * (x / y) := mul_le_mul_of_nonneg_left h1 hy.le
    have h3 : y * (x / y) = x := by field_simp
    linarith
  · have h1 : x / y < ((⌊x / y⌋ : ℚ)) + 1 := Int.lt_floor_add_one _
    have h2 : y * (x / y) < y * (((⌊x / y⌋ : ℚ)) + 1) := (mul_lt_mul_left hy).mpr h1
    have h3 : y * (x / y) = x := by field_simp
    nlinarith

theorem jsMod_eq_self (x y : ℚ) (hx : 0 ≤ x) (hxy : x < y) : jsMod x y = x := by
  have hy : 0 < y := lt_of_le_of_lt hx hxy
  have hq : 0 ≤ x / y := div_nonneg hx hy.le
  have hlt : x / y < 1 := (div_lt_one hy).mpr hxy
  unfold jsMod jsTrunc
  rw [if_pos hq]
  have hz : ⌊x / y⌋ = 0 := Int.floor_eq_zero_iff.mpr ⟨hq, hlt⟩
  rw [hz]
  push_cast
  ring

/-- C4: with durations inhale=4, hold=2, exhale=6, rest=2, the cycle time 4
yields phase "Hold" with bubble scale exactly 1.5, cycle time 6 yields phase
"Exhale" with scale exactly 1.5, and cycle time 12 yields phase "Rest" with
scale exactly 1.0. -/
theorem phase_boundary_values :
    (phaseParams 4).currentPhase = "Hold" ∧ (phaseParams 4).bubbleScale = 1.5 ∧
    (phaseParams 6).currentPhase = "Exhale" ∧ (phaseParams 6).bubbleScale = 1.5 ∧
    (phaseParams 12).currentPhase = "Rest" ∧ (phaseParams 12).bubbleScale = 1 := by
  norm_num [phaseParams, CYCLE, easeOutQuad]

/-- C5: for every non-negative elapsed time e, the phase the program computes
for e equals the phase it computes for e mod TOTAL_CYCLE, the total period
inhale + hold + exhale + rest = 14 seconds. -/
theorem phase_periodic (e : ℚ) (he : 0 ≤ e) :
    phaseFor e = phaseFor (jsMod e TOTAL_CYCLE) := by
  have hT : (0 : ℚ) < TOTAL_CYCLE := by norm_num [TOTAL_CYCLE, CYCLE]
  obtain ⟨h0, h1⟩ := jsMod_bounds e TOTAL_CYCLE he hT
  unfold phaseFor
  rw [jsMod_eq_self _ _ h0 h1]

/-- Witness for C5 at the concrete elapsed time 20. -/
theorem phase_periodic_witness :
    (0 : ℚ) ≤ 20 ∧ phaseFor 20 = phaseFor (jsMod 20 TOTAL_CYCLE) :=
  ⟨by norm_num, phase_periodic 20 (by norm_num)⟩

/-- C7: the start action sets the sync score to 100 and the elapsed-time
origin to 0 (unset), so any first frame after start computes elapsed time 0
and reports phase "Inhale". -/
theorem start_resets_score_and_origin (st : SessionState) (ts : ℚ) :
    (handleStart st).syncPercentage = 100 ∧
    (handleStart st).startTime = 0 ∧
    elapsedAt (handleStart st) ts = 0 ∧
    (animate (handleStart st) ts).phase = "Inhale" := by
  refine ⟨rfl, rfl, ?_, ?_⟩
  · simp [elapsedAt, effStartTime, handleStart]
  · norm_num [animate, handleStart, effStartTime, jsMod, jsTrunc, phaseParams,
      TOTAL_CYCLE, CYCLE]

/-- C8: the reset action, from any prior state, deactivates the session, sets
the reported phase to "Ready", the sync score to 100 and clears the pressing
flag. -/
theorem reset_restores_initial_reporting (st : SessionState) :
    (handleReset st).isActive = false ∧ (handleReset st).phase = "Ready" ∧
    (handleReset st).syncPercentage = 100 ∧ (handleReset st).isPressing = false :=
  ⟨rfl, rfl, rfl, rfl⟩

/-- C9: a resize while no particles exist initializes exactly 30 particles; a
subsequent resize leaves the particle set untouched, and in general any resize
on a state that already has particles leaves them unchanged. -/
theorem resize_initializes_once (st : CanvasState) (w₁ h₁ w₂ h₂ : ℚ)
    (rand₁ rand₂ : Nat → RandomDraws) (hempty : st.particles.length = 0) :
    (resizeCanvas st w₁ h₁ rand₁).particles.length = 30 ∧
    (resizeCanvas (resizeCanvas st w₁ h₁ rand₁) w₂ h₂ rand₂).particles =
      (resizeCanvas st w₁ h₁ rand₁).particles ∧
    (∀ st₂ : CanvasState, st₂.particles.length ≠ 0 →
      ∀ w h : ℚ, ∀ rand : Nat → RandomDraws,
        (resizeCanvas st₂ w h rand).particles = st₂.particles) := by
  have hlen : ∀ w h : ℚ, ∀ rand : Nat → RandomDraws,
      (initParticles w h rand).length = 30 := by
    intro w h rand
    simp [initParticles]
  have h1 : (resizeCanvas st w₁ h₁ rand₁).particles.length = 30 := by
    simp [resizeCanvas, hempty, hlen]
  have hgen : ∀ st₂ : CanvasState, st₂.particles.length ≠ 0 →
      ∀ w h : ℚ, ∀ rand : Nat → RandomDraws,
        (resizeCanvas st₂ w h rand).particles = st₂.particles := by
    intro st₂ hne w h rand
    simp [resizeCanvas, hne]
  exact ⟨h1, hgen _ (by rw [h1]; norm_num) w₂ h₂ rand₂, hgen⟩

/-- Witness for C9 at a concrete empty canvas state and concrete draws. -/
theorem resize_initializes_once_witness :
    (resizeCanvas ⟨0, 0, []⟩ 800 600 (fun _ => ⟨0, 0, 0, 0, 0, 0, 0⟩)).particles.length = 30 ∧
    (resizeCanvas (resizeCanvas ⟨0, 0, []⟩ 800 600 (fun _ => ⟨0, 0, 0, 0, 0, 0, 0⟩))
        1024 768 (fun _ => ⟨0, 0, 0, 0, 0, 0, 0⟩)).particles =
      (resizeCanvas ⟨0, 0, []⟩ 800 600 (fun _ => ⟨0, 0, 0, 0, 0, 0, 0⟩)).particles :=
  have h := resize_initializes_once ⟨0, 0, []⟩ 800 600 1024 768
    (fun _ => ⟨0, 0, 0, 0, 0, 0, 0⟩) (fun _ => ⟨0, 0, 0, 0, 0, 0, 0⟩) rfl
  ⟨h.1, h.2.1⟩

/-- C10: the per-frame particle update changes only the position fields: after
any number of frame updates the velocity, size, color and alpha of every
particle are exactly their initial values. -/
theorem frame_update_preserves_non_position_fields (w h : ℚ) (n : ℕ) (p : Particle) :
    (updateParticleN w h n p).vx = p.vx ∧ (updateParticleN w h n p).vy = p.vy ∧
    (updateParticleN w h n p).size = p.size ∧
    (updateParticleN w h n p).color = p.color ∧
    (updateParticleN w h n p).alpha = p.alpha := by
  induction n generalizing p with
  | zero => exact ⟨rfl, rfl, rfl, rfl, rfl⟩
  | succ n ih => simpa [updateParticleN, updateParticle] using ih (updateParticle w h p)

/-! Helper lemmas about the scoring step inside the animation frame. -/

theorem syncStep_range (prev : ℚ) (b : Bool) :
    0 ≤ syncStep prev b ∧ syncStep prev b ≤ 100 := by
  unfold syncStep
  exact ⟨le_max_left 0 _, max_le (by norm_num) (min_le_left _ _)⟩

theorem targetPhase_correct (s : String) :
    (((if s == "Inhale" then "Inhale" else if s == "Hold" then "Hold" else "None") == "Inhale") ||
     ((if s == "Inhale" then "Inhale" else if s == "Hold" then "Hold" else "None") == "Hold")) =
    (s == "Inhale" || s == "Hold") := by
  by_cases h1 : s = "Inhale"
  · subst h1; simp
  · by_cases h2 : s = "Hold"
    · subst h2; simp
    · simp [h1, h2]

theorem animate_sync_characterization (st : SessionState) (ts : ℚ) :
    (animate st ts).syncPercentage =
      if st.isActive = false then st.syncPercentage
      else if st.isPressing then
        syncStep st.syncPercentage
          ((phaseParams (jsMod (elapsedAt st ts) TOTAL_CYCLE)).currentPhase == "Inhale" ||
           (phaseParams (jsMod (elapsedAt st ts) TOTAL_CYCLE)).currentPhase == "Hold")
      else st.syncPercentage := by
  unfold animate
  by_cases hA : st.isActive = false
  · rw [if_pos hA, if_pos hA]
  · rw [if_neg hA, if_neg hA]
    simp only [elapsedAt]
    rw [targetPhase_correct]

/-- C1: starting from the initial state (score 100), the sync score stays in
[0, 100] after any sequence of start/reset/press/release/frame events: every
per-frame adjustment is clamped and start/reset write 100. -/
theorem sync_score_always_in_range :
    initialState.syncPercentage = 100 ∧
    ∀ events : List Event,
      0 ≤ (runEvents initialState events).syncPercentage ∧
      (runEvents initialState events).syncPercentage ≤ 100 := by
  have stepb : ∀ (st : SessionState) (e : Event),
      0 ≤ st.syncPercentage → st.syncPercentage ≤ 100 →
      0 ≤ (stepEvent st e).syncPercentage ∧ (stepEvent st e).syncPercentage ≤ 100 := by
    intro st e h0 h1
    cases e with
    | start => constructor <;> norm_num [stepEvent, handleStart]
    | reset => constructor <;> norm_num [stepEvent, handleReset]
    | mouseDown now => exact ⟨h0, h1⟩
    | mouseUp => exact ⟨h0, h1⟩
    | frame ts =>
      show 0 ≤ (animate st ts).syncPercentage ∧ (animate st ts).syncPercentage ≤ 100
      rw [animate_sync_characterization]
      split_ifs with hA hP
      · exact ⟨h0, h1⟩
      · exact syncStep_range _ _
      · exact ⟨h0, h1⟩
  have runb : ∀ (events : List Event) (st : SessionState),
      0 ≤ st.syncPercentage → st.syncPercentage ≤ 100 →
      0 ≤ (runEvents st events).syncPercentage ∧
      (runEvents st events).syncPercentage ≤ 100 := by
    intro events
    induction events with
    | nil => intro st h0 h1; exact ⟨h0, h1⟩
    | cons e rest ih =>
      intro st h0 h1
      obtain ⟨g0, g1⟩ := stepb st e h0 h1
      simpa [runEvents, List.foldl_cons] using ih (stepEvent st e) g0 g1
  exact ⟨rfl, fun events => runb events initialState (by norm_num [initialState])
    (by norm_num [initialState])⟩

/-- C3: on a frame where the session is active and the pressing flag is set,
the sync score becomes the clamp to [0, 100] of the previous score plus 1*0.1
when the current phase is "Inhale" or "Hold" and minus 2*0.1 otherwise; on a
frame where the flag is clear, or the session is inactive, the score is
unchanged. -/
theorem sync_adjustment_per_frame (st : SessionState) (ts : ℚ) :
    (st.isActive = true → st.isPressing = true →
      (animate st ts).syncPercentage =
        max 0 (min 100 (st.syncPercentage +
          (if (phaseParams (jsMod (elapsedAt st ts) TOTAL_CYCLE)).currentPhase = "Inhale" ∨
              (phaseParams (jsMod (elapsedAt st ts) TOTAL_CYCLE)).currentPhase = "Hold"
            then (1 : ℚ) else -2) * 0.1))) ∧
    (st.isPressing = false → (animate st ts).syncPercentage = st.syncPercentage) ∧
    (st.isActive = false → (animate st ts).syncPercentage = st.syncPercentage) := by
  refine ⟨?_, ?_, ?_⟩
  · intro hA hP
    rw [animate_sync_characterization, if_neg (by rw [hA]; simp), if_pos hP]
    simp [syncStep, Bool.or_eq_true, beq_iff_eq]
  · intro hP
    rw [animate_sync_characterization]
    split_ifs with hA hP2
    · rfl
    · rw [hP] at hP2; cases hP2
    · rfl
  · intro hA
    rw [animate_sync_characterization, if_pos hA]

/-- Witness for C3: an active, pressing state at elapsed time 1 s (phase
"Inhale") moves its score from 50 to 50.1. -/
theorem sync_adjustment_per_frame_witness :
    (animate ⟨true, "Inhale", 50, 1000, true, 0⟩ 2000).syncPercentage = 50.1 := by
  have h := (sync_adjustment_per_frame ⟨true, "Inhale", 50, 1000, true, 0⟩ 2000).1 rfl rfl
  rw [h]
  norm_num [elapsedAt, effStartTime, jsMod, jsTrunc, TOTAL_CYCLE, CYCLE, phaseParams,
    min_def, max_def]

/-- C2 counterexample: a particle at x = 1/10 inside the half-open rectangle
[0, 100) x [0, 100) with velocity vx = -1/5 is wrapped to x = 100 by one frame
update, leaving the half-open rectangle. -/
theorem particle_wrap_exits_half_open_rect :
    (0 ≤ (Particle.mk (1/10) 5 (-(1/5)) 0 1 "#5FD4D6" (1/5)).x ∧
     (Particle.mk (1/10) 5 (-(1/5)) 0 1 "#5FD4D6" (1/5)).x < 100 ∧
     0 ≤ (Particle.mk (1/10) 5 (-(1/5)) 0 1 "#5FD4D6" (1/5)).y ∧
     (Particle.mk (1/10) 5 (-(1/5)) 0 1 "#5FD4D6" (1/5)).y < 100) ∧
    (updateParticle 100 100 (Particle.mk (1/10) 5 (-(1/5)) 0 1 "#5FD4D6" (1/5))).x = 100 ∧
    ¬ (updateParticle 100 100 (Particle.mk (1/10) 5 (-(1/5)) 0 1 "#5FD4D6" (1/5))).x < 100 := by
  norm_num [updateParticle]

theorem updateParticle_mem_closed (w h : ℚ) (hw : 0 ≤ w) (hh : 0 ≤ h) (p : Particle) :
    0 ≤ (updateParticle w h p).x ∧ (updateParticle w h p).x ≤ w ∧
    0 ≤ (updateParticle w h p).y ∧ (updateParticle w h p).y ≤ h := by
  unfold updateParticle
  dsimp only
  split_ifs with hx1 hx2 hx2 hy1 hy2 hy2 <;>
    refine ⟨?_, ?_, ?_, ?_⟩ <;> linarith

/-- C2 amended: after any number of frame updates, a particle that started in
the closed rectangle [0, surfaceWidth] x [0, surfaceHeight] stays in that
closed rectangle (wrap-around can place it exactly on the far edge). -/
theorem particle_positions_in_closed_rect (w h : ℚ) (hw : 0 ≤ w) (hh : 0 ≤ h)
    (p : Particle) (hx0 : 0 ≤ p.x) (hx1 : p.x ≤ w) (hy0 : 0 ≤ p.y) (hy1 : p.y ≤ h)
    (n : ℕ) :
    0 ≤ (updateParticleN w h n p).x ∧ (updateParticleN w h n p).x ≤ w ∧
    0 ≤ (updateParticleN w h n p).y ∧ (updateParticleN w h n p).y ≤ h := by
  induction n generalizing p with
  | zero => exact ⟨hx0, hx1, hy0, hy1⟩
  | succ n ih =>
    obtain ⟨g1, g2, g3, g4⟩ := updateParticle_mem_closed w h hw hh p
    simpa [updateParticleN] using ih (updateParticle w h p) g1 g2 g3 g4

/-- Witness for the amended C2 at a concrete particle, surface and step count. -/
theorem particle_positions_in_closed_rect_witness :
    0 ≤ (updateParticleN 100 100 3 (Particle.mk (1/10) 5 (-(1/5)) 0 1 "#5FD4D6" (1/5))).x ∧
    (updateParticleN 100 100 3 (Particle.mk (1/10) 5 (-(1/5)) 0 1 "#5FD4D6" (1/5))).x ≤ 100 ∧
    0 ≤ (updateParticleN 100 100 3 (Particle.mk (1/10) 5 (-(1/5)) 0 1 "#5FD4D6" (1/5))).y ∧
    (updateParticleN 100 100 3 (Particle.mk (1/10) 5 (-(1/5)) 0 1 "#5FD4D6" (1/5))).y ≤ 100 :=
  particle_positions_in_closed_rect 100 100 (by norm_num) (by norm_num)
    (Particle.mk (1/10) 5 (-(1/5)) 0 1 "#5FD4D6" (1/5))
    (by norm_num) (by norm_num) (by norm_num) (by norm_num) 3

/-! Helper lemmas about the cubic ease-in-out curve. -/

theorem easeInOutCubic_mono {t₁ t₂ : ℚ} (h0 : 0 ≤ t₁) (h12 : t₁ ≤ t₂) (h1 : t₂ ≤ 1) :
    easeInOutCubic t₁ ≤ easeInOutCubic t₂ := by
  unfold easeInOutCubic
  split_ifs with ha hb hb
  · nlinarith [mul_nonneg (sub_nonneg.mpr h12) (sq_nonneg (t₁ + t₂)),
      mul_nonneg (sub_nonneg.mpr h12) (sq_nonneg t₁),
      mul_nonneg (sub_nonneg.mpr h12) (sq_nonneg t₂)]
  · have ha' : t₁ < 1/2 := by linarith [show (0.5 : ℚ) = 1/2 from by norm_num, ha]
    have hb' : (1/2 : ℚ) ≤ t₂ := by
      have := not_lt.mp hb
      linarith [show (0.5 : ℚ) = 1/2 from by norm_num]
    have p1 : (0 : ℚ) ≤ (1/2 - t₁) * t₁ * t₁ :=
      mul_nonneg (mul_nonneg (by linarith) h0) h0
    have p2 : (0 : ℚ) ≤ (1/2 - t₁) * (1/2 + t₁) :=
      mul_nonneg (by linarith) (by linarith)
    have k1 : 4 * t₁ * t₁ * t₁ ≤ 1/2 := by nlinarith [p1, p2]
    have k2 : (0 : ℚ) ≤ -2 * t₂ + 2 := by linarith
    have k3 : -2 * t₂ + 2 ≤ 1 := by linarith
    have k4 : (-2 * t₂ + 2) ^ 3 ≤ 1 := pow_le_one₀ k2 k3
    linarith
  · exact absurd (lt_of_le_of_lt h12 hb) ha
  · have k2 : (0 : ℚ) ≤ -2 * t₂ + 2 := by linarith
    have k5 : -2 * t₂ + 2 ≤ -2 * t₁ + 2 := by linarith
    have := pow_le_pow_left₀ k2 k5 3
    linarith

theorem easeInOutCubic_bounds {t : ℚ} (h0 : 0 ≤ t) (h1 : t ≤ 1) :
    0 ≤ easeInOutCubic t ∧ easeInOutCubic t ≤ 1 := by
  unfold easeInOutCubic
  split_ifs with h
  · have h' : t < 1/2 := by linarith [show (0.5 : ℚ) = 1/2 from by norm_num, h]
    constructor
    · exact mul_nonneg (mul_nonneg (mul_nonneg (by norm_num) h0) h0) h0
    · have p1 : (0 : ℚ) ≤ (1/2 - t) * t * t :=
        mul_nonneg (mul_nonneg (by linarith) h0) h0
      have p2 : (0 : ℚ) ≤ (1/2 - t) * (1/2 + t) :=
        mul_nonneg (by linarith) (by linarith)
      nlinarith [p1, p2]
  · have h' : (1/2 : ℚ) ≤ t := by
      have := not_lt.mp h
      linarith [show (0.5 : ℚ) = 1/2 from by norm_num]
    have k2 : (0 : ℚ) ≤ -2 * t + 2 := by linarith
    have k3 : -2 * t + 2 ≤ 1 := by linarith
    have k4 : (-2 * t + 2) ^ 3 ≤ 1 := pow_le_one₀ k2 k3
    have k5 : (0 : ℚ) ≤ (-2 * t + 2) ^ 3 := pow_nonneg k2 3
    constructor <;> linarith

theorem phaseParams_inhale_scale {e : ℚ} (h1 : e < CYCLE.inhale) :
    (phaseParams e).bubbleScale = 1 + easeInOutCubic (e / CYCLE.inhale) * 0.5 := by
  unfold phaseParams
  rw [if_pos h1]

/-- C6: on the inhale window [0, inhale), the bubble scale equals
1 + easeInOutCubic(e/inhale)*0.5, is monotonically non-decreasing, lies in
[1.0, 1.5], is exactly 1.0 at e = 0 and tends to 1.5 as e approaches inhale
from below. -/
theorem inhale_scale_monotone_bounded :
    (∀ e : ℚ, 0 ≤ e → e < CYCLE.inhale →
      (phaseParams e).bubbleScale = 1 + easeInOutCubic (e / CYCLE.inhale) * 0.5) ∧
    (∀ e₁ e₂ : ℚ, 0 ≤ e₁ → e₁ ≤ e₂ → e₂ < CYCLE.inhale →
      (phaseParams e₁).bubbleScale ≤ (phaseParams e₂).bubbleScale) ∧
    (∀ e : ℚ, 0 ≤ e → e < CYCLE.inhale →
      1 ≤ (phaseParams e).bubbleScale ∧ (phaseParams e).bubbleScale ≤ 1.5) ∧
    (phaseParams 0).bubbleScale = 1 ∧
    (∀ ε : ℚ, 0 < ε → ∃ δ : ℚ, 0 < δ ∧ ∀ e : ℚ,
      CYCLE.inhale - δ < e → e < CYCLE.inhale →
      |(phaseParams e).bubbleScale - 1.5| < ε) := by
  have hin : CYCLE.inhale = 4 := rfl
  refine ⟨?_, ?_, ?_, ?_, ?_⟩
  · intro e _ he
    exact phaseParams_inhale_scale he
  · intro e₁ e₂ h0 h12 h2
    have h1 : e₁ < CYCLE.inhale := lt_of_le_of_lt h12 h2
    rw [phaseParams_inhale_scale h1, phaseParams_inhale_scale h2]
    rw [hin] at h2 ⊢
    have m := easeInOutCubic_mono (show (0 : ℚ) ≤ e₁ / 4 by linarith)
      (show e₁ / 4 ≤ e₂ / 4 by linarith) (show e₂ / 4 ≤ 1 by linarith)
    linarith
  · intro e h0 h1
    rw [phaseParams_inhale_scale h1]
    rw [hin] at h1 ⊢
    have hb := easeInOutCubic_bounds (show (0 : ℚ) ≤ e / 4 by linarith)
      (show e / 4 ≤ 1 by linarith)
    constructor
    · nlinarith [hb.1]
    · nlinarith [hb.2]
  · norm_num [phaseParams, CYCLE, easeInOutCubic]
  · intro ε hε
    refine ⟨min 1 ε, lt_min one_pos hε, ?_⟩
    intro e he1 he2
    have hδ1 : min 1 ε ≤ 1 := min_le_left _ _
    have hδε : min 1 ε ≤ ε := min_le_right _ _
    have hδ0 : 0 < min 1 ε := lt_min one_pos hε
    rw [hin] at he1 he2
    have he3 : (3 : ℚ) < e := by linarith
    have hlt : e < CYCLE.inhale := by rw [hin]; linarith
    have ht : ¬ (e / CYCLE.inhale < 0.5) := by
      rw [hin, not_lt]
      nlinarith
    have hsc : (phaseParams e).bubbleScale - 1.5 = -((4 - e) ^ 3 / 32) := by
      rw [phaseParams_inhale_scale hlt]
      unfold easeInOutCubic
      rw [if_neg ht, hin]
      ring
    have h4e : (0 : ℚ) < 4 - e := by linarith
    have habs : (0 : ℚ) ≤ (4 - e) ^ 3 / 32 :=
      div_nonneg (pow_nonneg h4e.le 3) (by norm_num)
    rw [hsc, abs_neg, abs_of_nonneg habs]
    have h4eδ : 4 - e < min 1 ε := by linarith
    have hcube : (4 - e) ^ 3 < (min 1 ε) ^ 3 := pow_lt_pow_left₀ h4eδ h4e.le (by norm_num)
    have hm2 : (min 1 ε : ℚ) * min 1 ε ≤ min 1 ε := mul_le_of_le_one_left hδ0.le hδ1
    have hδ3 : (min 1 ε) ^ 3 ≤ min 1 ε := by
      nlinarith [hm2, mul_le_mul_of_nonneg_right hm2 hδ0.le]
    linarith

/-- Witness for C6 at concrete cycle times and a concrete tolerance. -/
theorem inhale_scale_monotone_bounded_witness :
    (phaseParams 1).bubbleScale = 1 + easeInOutCubic (1 / CYCLE.inhale) * 0.5 ∧
    (phaseParams 1).bubbleScale ≤ (phaseParams 3).bubbleScale ∧
    (1 ≤ (phaseParams 2).bubbleScale ∧ (phaseParams 2).bubbleScale ≤ 1.5) ∧
    (∃ δ : ℚ, 0 < δ ∧ ∀ e : ℚ, CYCLE.inhale - δ < e → e < CYCLE.inhale →
      |(phaseParams e).bubbleScale - 1.5| < 1/10) :=
  have h := inhale_scale_monotone_bounded
  ⟨h.1 1 (by norm_num) (by norm_num [CYCLE]),
   h.2.1 1 3 (by norm_num) (by norm_num) (by norm_num [CYCLE]),
   h.2.2.1 2 (by norm_num) (by norm_num [CYCLE]),
   h.2.2.2.2 (1/10) (by norm_num)⟩

end BubbleCalmFlow
